import Mathlib

/-!
Shallow embedding of `slowfast/datasets/kinetics.py` (the active, uncommented
`Kinetics` dataset class) and proofs about its behaviour.

Modelling conventions:
* Python ints are `Int` (or `Nat` where the source value is always a
  non-negative count or list index); Python `//` and `%` on those
  non-negative values are `Nat` division and modulus, with an explicit
  error value where Python would raise `ZeroDivisionError`.
* Fallible code returns `Except FetchErr`/`Except ConstructErr`; an
  uncaught Python exception is an `Except.error` carrying a constructor
  naming the Python exception.
* External collaborators (video container, decoder, `random.randint`,
  the pickled keypoint side files) are an explicit environment `Env` of
  oracles, one value per retry attempt, mirroring the black-box contracts
  the class relies on.
* The mutable per-instance state touched by `__getitem__` (the `self.kpts`
  cache) is threaded explicitly; the manifest arrays are immutable fields.
-/

set_option synthInstance.maxSize 2048

/-- Dataset split mode; the constructor asserts the mode is one of these. -/
inductive Mode where
  | train
  | val
  | test
deriving DecidableEq, Repr

/-- The configuration fields of `cfg` that the modelled code reads.
`trainCropSize` is `cfg.DATA.TRAIN_CROP_SIZE`: the code has the read of it
commented out (line 230) and uses the literal `256` instead, but the field
exists in the configuration and is kept here so that claims about it can be
stated. -/
structure Cfg where
  trainJitterScales : Int × Int
  trainCropSize : Int
  testCropSize : Int
  numSpatialCrops : Nat
  pathLabelSeparator : String
  pathRoot : String
  numClasses : Nat
deriving DecidableEq, Repr

/-- Result of the sampling-parameter selection at the top of `__getitem__`. -/
structure SampleParams where
  temporalIdx : Int
  spatialIdx : Int
  minScale : Int
  maxScale : Int
  cropSize : Int
deriving DecidableEq, Repr

/-- Uncaught Python exceptions that can escape `__getitem__`. -/
inductive FetchErr where
  /-- an `assert` in the sampling-parameter selection failed -/
  | assertionError
  /-- `ZeroDivisionError`, from `i_try % (self._num_retries // 8)` or
  `self._spatial_temporal_idx[index] // self.cfg.TEST.NUM_SPATIAL_CROPS` -/
  | zeroDivisionError
  /-- `IndexError` from a list subscript with an out-of-range index -/
  | indexError
  /-- `FileNotFoundError` from `open("./data/video{id}_kpts")` -/
  | kptsFileNotFound (path : String)
  /-- `KeyError` on the per-video key of the keypoint store -/
  | keyErrorVid (key : String)
  /-- `KeyError` on the per-frame key of the keypoint store -/
  | keyErrorFrame (key : String)
  /-- `ValueError` from `min([])` on an empty polygon -/
  | valueErrorEmptyBox
  /-- the retry-exhaustion `RuntimeError`, carrying the last-tried index and
  its video path (the values formatted into the message) -/
  | exhausted (index : Nat) (path : String)
  /-- `NameError`: with `num_retries = 0` the `for` body never runs and the
  `else` clause formats the loop variable `i_try`, which is unbound -/
  | nameErrorITry
deriving DecidableEq, Repr

/-- Sampling-parameter selection (`__getitem__` lines 224-283), as a pure
function of the configuration, the mode and the stored
`spatial_temporal_idx` value of the requested index.  In train/val mode the
crop size is the hardcoded literal `256` (the read of
`cfg.DATA.TRAIN_CROP_SIZE` is commented out in the source) and the two
`assert` statements require `min_scale == max_scale` and
`max_scale == crop_size`.  In test mode, `NUM_SPATIAL_CROPS = 0` would make
Python raise `ZeroDivisionError` on the `//`. -/
def sampleParams (cfg : Cfg) (mode : Mode) (stIdx : Nat) : Except FetchErr SampleParams :=
  match mode with
  | .train | .val =>
    let minScale := cfg.trainJitterScales.1
    let maxScale := cfg.trainJitterScales.2
    let cropSize : Int := 256
    if minScale = maxScale then
      if maxScale = cropSize then
        .ok ⟨-1, -1, minScale, maxScale, cropSize⟩
      else .error .assertionError
    else .error .assertionError
  | .test =>
    match cfg.numSpatialCrops with
    | 0 => .error .zeroDivisionError
    | n + 1 =>
      let nsc := n + 1
      let temporalIdx : Int := (stIdx / nsc : Nat)
      let spatialIdx : Int := if nsc > 1 then ((stIdx % nsc : Nat) : Int) else 1
      let scales : Int × Int × Int :=
        if nsc > 1 then (cfg.testCropSize, cfg.testCropSize, cfg.testCropSize)
        else (cfg.trainJitterScales.1, cfg.trainJitterScales.1, cfg.testCropSize)
      -- assert len({min_scale, max_scale}) == 1
      if scales.1 = scales.2.1 then
        .ok ⟨temporalIdx, spatialIdx, scales.1, scales.2.1, scales.2.2⟩
      else .error .assertionError

/-- Errors that can escape `_construct_loader`. -/
inductive ConstructErr where
  /-- the `assert pathmgr.exists(path_to_file)` failed: manifest missing -/
  | missingManifest
  /-- the `RuntimeError` raised for a line splitting into none of 1, 2, 3 fields -/
  | badLineShape
  /-- `ValueError` from `int(label)` on a non-integer label field -/
  | badLabel
  /-- the final `assert len(self._path_to_videos) > 0` failed (the manifest
  parsed to zero entries; evaluating the assertion message actually raises
  `AttributeError` on the undefined `self._split_idx`, still a fatal
  construction error) -/
  | emptyManifest
deriving DecidableEq, Repr

/-- Helper for `pySplit`: scan the character list, cutting at each
occurrence of the (non-empty) separator, exactly as Python `str.split(sep)`
does.  `fuel` only drives the recursion; any value above the input length
is enough. -/
def pySplitGo (sep : List Char) : Nat → List Char → List Char → List (List Char)
  | 0, s, acc => [acc.reverse ++ s]
  | fuel + 1, s, acc =>
    match s with
    | [] => [acc.reverse]
    | c :: rest =>
      if sep.isPrefixOf (c :: rest) then
        acc.reverse :: pySplitGo sep fuel ((c :: rest).drop sep.length) []
      else
        pySplitGo sep fuel rest (c :: acc)

/-- Python `line.split(sep)` for a non-empty separator (on an empty
separator Python raises `ValueError`; this code path never uses one). -/
def pySplit (sep s : String) : List String :=
  if sep = "" then [s]
  else (pySplitGo sep.toList (s.toList.length + 1) s.toList []).map List.asString

/-- Digit-sequence value accumulator for `pyParseInt`. -/
def digitsVal : List Char → Option Nat → Option Nat
  | [], acc => acc
  | c :: rest, acc =>
    if c.isDigit then
      digitsVal rest (some (acc.getD 0 * 10 + (c.toNat - 48)))
    else none

/-- Python `int(s)` on a string: an optional sign followed by a non-empty
digit run (surrounding whitespace, which Python also tolerates, never
occurs in the manifests this spec considers); `none` is the `ValueError`. -/
def pyParseInt (s : String) : Option Int :=
  match s.toList with
  | '-' :: rest => (digitsVal rest none).map (fun n => -(n : Int))
  | '+' :: rest => (digitsVal rest none).map (fun n => (n : Int))
  | l => (digitsVal l none).map (fun n => (n : Int))

/-- Parse one manifest line (`_construct_loader` lines 147-163): split on the
configured separator; 2 fields are `path, label`, 3 fields are
`path, fn, label` with the middle field unused, 1 field is a bare path with
label `0`; anything else raises.  The label field goes through `int(...)`. -/
def parseLine (cfg : Cfg) (line : String) : Except ConstructErr (String × Int) :=
  match pySplit cfg.pathLabelSeparator line with
  | [path, label] =>
    match pyParseInt label with
    | some l => .ok (path, l)
    | none => .error .badLabel
  | [path, _, label] =>
    match pyParseInt label with
    | some l => .ok (path, l)
    | none => .error .badLabel
  | [path] => .ok (path, 0)
  | _ => .error .badLineShape

/-- Sequentially parse all manifest lines, stopping at the first bad line,
as the `for clip_idx, path_label in enumerate(rows)` loop does. -/
def parseRows (cfg : Cfg) : List String → Except ConstructErr (List (String × Int))
  | [] => .ok []
  | row :: rest => do
    let entry ← parseLine cfg row
    let tail ← parseRows cfg rest
    pure (entry :: tail)

/-- Model of `os.path.join(a, b)` for POSIX paths and two arguments. -/
def osPathJoin (a b : String) : String :=
  if ['/'].isPrefixOf b.toList then b
  else if a = "" then b
  else if ['/'].isSuffixOf a.toList then a ++ b
  else a ++ "/" ++ b

/-- Python `s.endswith(t)`, used to state the manifest-path property. -/
def pyEndsWith (s t : String) : Bool := t.toList.isSuffixOf s.toList

/-- The three parallel manifest arrays built by `_construct_loader`. -/
structure LoaderData where
  paths : List String
  labels : List Int
  stIdxs : List Nat
deriving DecidableEq, Repr

/-- Model of `_construct_loader`: the manifest file is `none` when missing
(the `pathmgr.exists` assert), otherwise its list of lines.  Each parsed
line appends one entry to each of the three arrays: the prefix-joined path,
the integer label, and `0` as the spatial-temporal index. -/
def constructLoader (cfg : Cfg) (file : Option (List String)) :
    Except ConstructErr LoaderData :=
  match file with
  | none => .error .missingManifest
  | some rows => do
    let parsed ← parseRows cfg rows
    let data : LoaderData :=
      { paths := parsed.map (fun e => osPathJoin cfg.pathRoot e.1)
        labels := parsed.map (fun e => e.2)
        stIdxs := parsed.map (fun _ => 0) }
    if data.paths.length > 0 then pure data else .error .emptyManifest

/-- Model of `_get_chunk`: `reader skip` is the outcome of
`pandas.read_csv(..., skiprows=skip)` (`none` = raises).  On failure the
skip offset is reset to `0` and the call recurses with no other change;
`fuel` is the Python recursion limit, and exhausting it is the
`RecursionError` (`none` result).  The second component counts read
attempts made. -/
def getChunk (reader : Nat → Option Nat) (skip : Nat) : Nat → Option Nat × Nat
  | 0 => (none, 0)
  | fuel + 1 =>
    match reader skip with
    | some chunk => (some chunk, 1)
    | none =>
      let sub := getChunk reader 0 fuel
      (sub.1, sub.2 + 1)

/-- Python `int(...)` truncation toward zero on a rational coordinate. -/
def pyInt (q : ℚ) : Int := q.num.tdiv q.den

/-- Python `min(xs)` over a list: `none` on the empty list (`ValueError`). -/
def pyMin : List Int → Option Int
  | [] => none
  | x :: xs => some (xs.foldl min x)

/-- Python `max(xs)` over a list: `none` on the empty list (`ValueError`). -/
def pyMax : List Int → Option Int
  | [] => none
  | x :: xs => some (xs.foldl max x)

/-- Bounding-box alignment of one polygon (`__getitem__` lines 451-464):
truncate each coordinate with `int(...)`, take componentwise min/max, and
emit the axis-aligned rectangle corners in the fixed order
`[[x_min, y_min], [x_max, y_min], [x_max, y_max], [x_min, y_max]]`.
`none` models the `ValueError` Python raises from `min([])` on an empty
polygon. -/
def alignBox (box : List (ℚ × ℚ)) : Option (List (Int × Int)) :=
  let xPts := box.map (fun coord => pyInt coord.1)
  let yPts := box.map (fun coord => pyInt coord.2)
  match pyMin xPts, pyMax xPts, pyMin yPts, pyMax yPts with
  | some xMin, some xMax, some yMin, some yMax =>
    some [(xMin, yMin), (xMax, yMin), (xMax, yMax), (xMin, yMax)]
  | _, _, _, _ => none

/-- Per-video-name, per-frame-name store of bounding polygons, as loaded by
`pickle.load` from one `./data/video{id}_kpts` side file.  Coordinates are
rationals standing for the numeric values before `int(...)` truncation. -/
abbrev KptsStore := List (String × List (String × List (List (ℚ × ℚ))))

/-- The `self.kpts` cache: dataset index to loaded keypoint store. -/
abbrev KptsCache := List (Nat × KptsStore)

/-- The external collaborators of one `__getitem__` call, as oracles.
`containerOk t i` tells whether `container.get_video_container` for attempt
`t` at index `i` produced a container (`false` covers both an exception,
which the `try` swallows, and a `None` result).  `decodeFrames t i` is the
frames value returned by `decoder.decode` (`none` = Python `None`; entries
`none` model `None` placeholders inside the list; frame payloads themselves
are opaque).  `decodeBboxIdx t i` is `bbox_index[0]` as decoded source-frame
numbers.  `rand t` is the value `random.randint(0, num_videos - 1)` would
return on attempt `t`.  `kptsFile id` is the content of the side file
`./data/video{id}_kpts` (`none` = file missing). -/
structure Env where
  containerOk : Nat → Nat → Bool
  decodeFrames : Nat → Nat → Option (List (Option Unit))
  decodeBboxIdx : Nat → Nat → List Nat
  rand : Nat → Nat
  kptsFile : String → Option KptsStore

/-- The immutable per-instance fields of a constructed dataset. -/
structure Dataset where
  cfg : Cfg
  mode : Mode
  numRetries : Nat
  paths : List String
  labels : List Int
  stIdxs : List Nat

/-- Python slice `s[a : -b]` for non-negative `a`, `b`. -/
def pySliceDrop (s : String) (a b : Nat) : String :=
  ((s.toList.drop a).take (s.length - b - a)).asString

/-- Python slice `s[: -b]` for non-negative `b`. -/
def pyDropLast (s : String) (b : Nat) : String :=
  (s.toList.take (s.length - b)).asString

/-- The side-file id derived from a video path: `path[40:-10]`
(`__getitem__` line 394). -/
def deriveKptsId (path : String) : String := pySliceDrop path 40 10

/-- The side-file path `"./data/video{video_idx}_kpts"` (line 396). -/
def kptsSideFilePath (path : String) : String :=
  "./data/video" ++ deriveKptsId path ++ "_kpts"

/-- The per-video key into a loaded keypoint store (`__getitem__` lines
445-446): the last `/`-component of the video path with its last 10
characters replaced by `".mp4"`. -/
def vidNameOf (path : String) : String :=
  pyDropLast ((pySplit "/" path).getLastD "") 10 ++ ".mp4"

/-- Whether the decode result fails validation (`__getitem__` line 429):
`frames_decoded is None or None in frames_decoded`. -/
def framesBad : Option (List (Option Unit)) → Bool
  | none => true
  | some frames => frames.any (fun f => f.isNone)

/-- Bounding-box lookup and alignment for one decoded frame number
(`__getitem__` lines 443-465, one iteration): `KeyError` when the per-video
or per-frame key is absent, otherwise every polygon of that frame reduced
to its axis-aligned rectangle. -/
def alignFrame (store : KptsStore) (vidName : String) (frameNum : Nat) :
    Except FetchErr (List (List (Int × Int))) :=
  let frameName := "frame" ++ toString frameNum
  match store.lookup vidName with
  | none => .error (.keyErrorVid vidName)
  | some frameMap =>
    match frameMap.lookup frameName with
    | none => .error (.keyErrorFrame frameName)
    | some boundingBoxes =>
      boundingBoxes.mapM (fun box =>
        match alignBox box with
        | some rect => .ok rect
        | none => .error .valueErrorEmptyBox)

/-- The whole bounding-box accumulation loop over decoded frame numbers:
one rectangle list per decoded frame. -/
def alignAll (store : KptsStore) (path : String) (frameNums : List Nat) :
    Except FetchErr (List (List (List (Int × Int)))) :=
  frameNums.mapM (alignFrame store (vidNameOf path))

/-- The successful result of a fetch: the (possibly binarized) label, the
index the clip actually came from, and the aligned bounding boxes.  The
frame tensors and time indices are products of the external decode and
transform collaborators and are abstracted away. -/
structure FetchOk where
  label : Int
  index : Nat
  bboxes : List (List (List (Int × Int)))
deriving DecidableEq, Repr

/-- Outcome of one iteration of the retry loop. -/
inductive StepOut where
  /-- the iteration hit `continue`; carries the index for the next attempt
  and the (possibly grown) kpts cache -/
  | retry (index : Nat) (kpts : KptsCache)
  /-- the iteration reached the `return` statement -/
  | finish (result : FetchOk) (kpts : KptsCache)
  /-- an exception escaped `__getitem__` during this iteration -/
  | fail (e : FetchErr) (kpts : KptsCache)
deriving DecidableEq, Repr

/-- One iteration of the retry loop of `__getitem__` (lines 302-540) at
attempt counter `iTry` with current index `index`.

Source-faithfulness notes:
* An out-of-range `index` makes `self._path_to_videos[index]` raise
  `IndexError`.  Inside the `try` (line 309) it is swallowed, but the
  `logger.warning` format on line 322 performs the same subscript outside
  any `try`, so the `IndexError` escapes; the model short-circuits to that
  outcome.
* The keypoint side file is opened (lines 392-398) after `decoder.decode`
  returns but before the frame-validation check (line 429), so a missing
  file aborts the fetch even when the decode result would have failed
  validation; a cache hit skips the file entirely.
* On the validation-failure path, `self.mode not in ["test"]` is evaluated
  first, so only non-test modes evaluate
  `i_try % (self._num_retries // 8)`, which raises `ZeroDivisionError`
  when `num_retries < 8`. -/
def attemptStep (env : Env) (ds : Dataset) (iTry index : Nat) (kpts : KptsCache) :
    StepOut :=
  if index ≥ ds.paths.length then .fail .indexError kpts
  else
    let path := ds.paths.getD index ""
    if env.containerOk iTry index = false then
      -- container acquisition failed (exception or None result)
      if ds.mode ≠ .test ∧ iTry > ds.numRetries / 8 then
        .retry (env.rand iTry) kpts
      else
        .retry index kpts
    else
      let frames := env.decodeFrames iTry index
      let bboxNums := env.decodeBboxIdx iTry index
      -- lazily load and cache the keypoint side file for this index
      let loaded : Except FetchErr (KptsCache × KptsStore) :=
        match kpts.lookup index with
        | some store => .ok (kpts, store)
        | none =>
          match env.kptsFile (deriveKptsId path) with
          | none => .error (.kptsFileNotFound (kptsSideFilePath path))
          | some store => .ok ((index, store) :: kpts, store)
      match loaded with
      | .error e => .fail e kpts
      | .ok (kpts', store) =>
        if framesBad frames then
          if ds.mode ≠ .test then
            match ds.numRetries / 8 with
            | 0 => .fail .zeroDivisionError kpts'
            | d + 1 =>
              if iTry % (d + 1) = 0 then .retry (env.rand iTry) kpts'
              else .retry index kpts'
          else
            .retry index kpts'
        else
          match alignAll store path bboxNums with
          | .error e => .fail e kpts'
          | .ok bboxes =>
            if index ≥ ds.labels.length then .fail .indexError kpts'
            else
              let label := ds.labels.getD index 0
              let label := if ds.cfg.numClasses = 2 ∧ label > 0 then 1 else label
              .finish ⟨label, index, bboxes⟩ kpts'

instance {ε α : Type} [DecidableEq ε] [DecidableEq α] : DecidableEq (Except ε α) :=
  fun a b =>
    match a, b with
    | .ok x, .ok y =>
      if h : x = y then .isTrue (by rw [h]) else .isFalse (fun c => h (Except.ok.inj c))
    | .error x, .error y =>
      if h : x = y then .isTrue (by rw [h]) else .isFalse (fun c => h (Except.error.inj c))
    | .ok _, .error _ => .isFalse (fun c => Except.noConfusion c)
    | .error _, .ok _ => .isFalse (fun c => Except.noConfusion c)

/-- Result of running the retry loop: the outcome, the final kpts cache and
the number of loop iterations begun. -/
structure FetchRes where
  out : Except FetchErr FetchOk
  kpts : KptsCache
  attempts : Nat
deriving DecidableEq, Repr

/-- The retry loop `for i_try in range(self._num_retries)` with its `else`
clause, driven by `attemptStep`.  `remaining` is the number of iterations
the `range` still allows; when it hits `0` the `else` clause raises the
exhaustion `RuntimeError`, whose message formats the current index and
`self._path_to_videos[index]` (an out-of-range index at that point raises
`IndexError` from the format argument instead). -/
def fetchGo (env : Env) (ds : Dataset) :
    Nat → Nat → KptsCache → Nat → FetchRes
  | 0, _, kpts, index =>
    if index < ds.paths.length then
      ⟨.error (.exhausted index (ds.paths.getD index "")), kpts, 0⟩
    else
      ⟨.error .indexError, kpts, 0⟩
  | remaining + 1, iTry, kpts, index =>
    match attemptStep env ds iTry index kpts with
    | .fail e kpts' => ⟨.error e, kpts', 1⟩
    | .finish result kpts' => ⟨.ok result, kpts', 1⟩
    | .retry index' kpts' =>
      let sub := fetchGo env ds remaining (iTry + 1) kpts' index'
      ⟨sub.out, sub.kpts, sub.attempts + 1⟩

/-- Mutable state of a dataset instance: the immutable arrays plus the
`self.kpts` cache and the `self.epoch` counter. -/
structure KineticsState where
  ds : Dataset
  kpts : KptsCache
  epoch : ℚ

/-- Sampling-parameter selection as `__getitem__` performs it for a
requested index: train/val ignore the stored array; test mode first reads
`self._spatial_temporal_idx[index]` (an out-of-range index raises
`IndexError`). -/
def selectAt (ds : Dataset) (index : Nat) : Except FetchErr SampleParams :=
  match ds.mode with
  | .test =>
    if index < ds.stIdxs.length then
      sampleParams ds.cfg .test (ds.stIdxs.getD index 0)
    else .error .indexError
  | m => sampleParams ds.cfg m 0

/-- What a `__getitem__` call produced: the returned value or escaped
exception, and the number of retry-loop iterations begun. -/
structure GetRes where
  out : Except FetchErr FetchOk
  attempts : Nat
deriving DecidableEq, Repr

/-- Model of `__getitem__`: sampling-parameter selection, then the bounded
retry loop.  With `num_retries = 0` the loop body never runs and the `else`
clause raises `NameError` on the unbound `i_try` (after the format argument
`self._path_to_videos[index]` is evaluated, so an out-of-range index raises
`IndexError` first). -/
def getitem (env : Env) (st : KineticsState) (index : Nat) :
    GetRes × KineticsState :=
  match selectAt st.ds index with
  | .error e => (⟨.error e, 0⟩, st)
  | .ok _ =>
    if st.ds.numRetries = 0 then
      if index < st.ds.paths.length then
        (⟨.error .nameErrorITry, 0⟩, st)
      else
        (⟨.error .indexError, 0⟩, st)
    else
      let res := fetchGo env st.ds st.ds.numRetries 0 st.kpts index
      (⟨res.out, res.attempts⟩, { st with kpts := res.kpts })

/-- Model of `_set_epoch_num`. -/
def setEpochNum (st : KineticsState) (epoch : ℚ) : KineticsState :=
  { st with epoch := epoch }

/-- Model of the `num_videos` property and `__len__`. -/
def numVideos (ds : Dataset) : Nat := ds.paths.length

/-- The `__init__` wiring of `_construct_loader`'s arrays into the
instance fields. -/
def mkKinetics (cfg : Cfg) (mode : Mode) (numRetries : Nat) (d : LoaderData) :
    Dataset :=
  ⟨cfg, mode, numRetries, d.paths, d.labels, d.stIdxs⟩

/-- The kpts cache a retry-loop iteration left behind. -/
def StepOut.cache : StepOut → KptsCache
  | .retry _ kpts => kpts
  | .finish _ kpts => kpts
  | .fail _ kpts => kpts

/- Concrete fixtures used by counterexamples and witnesses. -/

/-- Configuration with a 256-square training jitter range, matching the
hardcoded crop, and three test-time spatial crops. -/
def egCfg : Cfg := ⟨(256, 256), 256, 224, 3, ",", "", 2⟩

/-- Configuration whose training jitter range and configured train crop
size agree at 224, differing from the hardcoded 256. -/
def egCfg224 : Cfg := ⟨(224, 224), 224, 224, 3, ",", "", 2⟩

/-- Configuration with a single test-time spatial crop. -/
def egCfgOneCrop : Cfg := ⟨(224, 224), 224, 224, 1, ",", "", 2⟩

/-- Configuration with separator `,` and path prefix `/data`. -/
def egCfgData : Cfg := ⟨(256, 256), 256, 224, 3, ",", "/data", 2⟩

/-- A 52-character video path whose slice `[40:-10]` is `"93"`. -/
def egPath : String := "/aaaaaaaaaaaaaaaaaaaaaaaaaaaaaaaaaaaaaa/93_20fps.mp4"

/-- A single-video train-mode dataset with `num_retries = 2`. -/
def egDsRetries2 : Dataset := ⟨egCfg, .train, 2, ["v"], [0], [0]⟩

/-- A single-video train-mode dataset with `num_retries = 100` over
`egPath`. -/
def egDsK : Dataset := ⟨egCfg, .train, 100, [egPath], [5], [0]⟩

/-- A single-video test-mode dataset with `num_retries = 8`. -/
def egDsTest8 : Dataset := ⟨egCfg, .test, 8, ["v"], [0], [0]⟩

/-- Environment whose container always opens and whose decoder always
returns a null frame list; keypoint side files are all empty stores. -/
def egEnvNullFrames : Env :=
  ⟨fun _ _ => true, fun _ _ => none, fun _ _ => [], fun _ => 0, fun _ => some []⟩

/-- Environment whose container never opens. -/
def egEnvNoContainer : Env :=
  ⟨fun _ _ => false, fun _ _ => none, fun _ _ => [], fun _ => 0, fun _ => some []⟩

/-- Environment that decodes one frame (source frame number 3)
successfully but has no keypoint side files at all. -/
def egEnvNoKptsFile : Env :=
  ⟨fun _ _ => true, fun _ _ => some [some ()], fun _ _ => [3], fun _ => 0, fun _ => none⟩

/-- A keypoint store holding one triangle polygon for frame 3 of
`93.mp4`. -/
def egStore : KptsStore := [("93.mp4", [("frame3", [[(2, 7), (8, 3), (5, 10)]])])]

/-- Environment that decodes one frame (source frame number 3)
successfully, with `egStore` as the content of every keypoint side file. -/
def egEnvStore : Env :=
  ⟨fun _ _ => true, fun _ _ => some [some ()], fun _ _ => [3], fun _ => 0, fun _ => some egStore⟩

/-- A store with no entry for `93.mp4` at all. -/
def egStoreNoVid : KptsStore := [("other.mp4", [])]

/-- A store with an entry for `93.mp4` but no `frame3` key. -/
def egStoreNoFrame : KptsStore := [("93.mp4", [("frame7", [])])]

/-! Helper lemmas.  These are shared infrastructure; the claim theorems
follow them. -/

theorem foldl_min_le_init (xs : List Int) (x : Int) : xs.foldl min x ≤ x := by
  induction xs generalizing x with
  | nil => simp
  | cons a l ih =>
    rw [List.foldl_cons]
    exact le_trans (ih (min x a)) (min_le_left x a)

theorem foldl_min_le_mem (xs : List Int) (x y : Int) (hy : y ∈ xs) :
    xs.foldl min x ≤ y := by
  induction xs generalizing x with
  | nil => cases hy
  | cons a l ih =>
    rw [List.foldl_cons]
    rcases List.mem_cons.mp hy with h | h
    · subst h
      exact le_trans (foldl_min_le_init l (min x y)) (min_le_right x y)
    · exact ih (min x a) h

theorem foldl_min_mem (xs : List Int) (x : Int) : xs.foldl min x ∈ x :: xs := by
  induction xs generalizing x with
  | nil => simp
  | cons a l ih =>
    rw [List.foldl_cons]
    rcases List.mem_cons.mp (ih (min x a)) with h | h
    · rcases min_choice x a with hc | hc
      · rw [h, hc]; exact List.mem_cons_self _ _
      · rw [h, hc]; exact List.mem_cons_of_mem _ (List.mem_cons_self _ _)
    · exact List.mem_cons_of_mem _ (List.mem_cons_of_mem _ h)

theorem le_foldl_max_init (xs : List Int) (x : Int) : x ≤ xs.foldl max x := by
  induction xs generalizing x with
  | nil => simp
  | cons a l ih =>
    rw [List.foldl_cons]
    exact le_trans (le_max_left x a) (ih (max x a))

theorem le_foldl_max_mem (xs : List Int) (x y : Int) (hy : y ∈ xs) :
    y ≤ xs.foldl max x := by
  induction xs generalizing x with
  | nil => cases hy
  | cons a l ih =>
    rw [List.foldl_cons]
    rcases List.mem_cons.mp hy with h | h
    · subst h
      exact le_trans (le_max_right x y) (le_foldl_max_init l (max x y))
    · exact ih (max x a) h

theorem foldl_max_mem (xs : List Int) (x : Int) : xs.foldl max x ∈ x :: xs := by
  induction xs generalizing x with
  | nil => simp
  | cons a l ih =>
    rw [List.foldl_cons]
    rcases List.mem_cons.mp (ih (max x a)) with h | h
    · rcases max_choice x a with hc | hc
      · rw [h, hc]; exact List.mem_cons_self _ _
      · rw [h, hc]; exact List.mem_cons_of_mem _ (List.mem_cons_self _ _)
    · exact List.mem_cons_of_mem _ (List.mem_cons_of_mem _ h)

theorem parseRows_length (cfg : Cfg) :
    ∀ rows parsed, parseRows cfg rows = .ok parsed → parsed.length = rows.length := by
  intro rows
  induction rows with
  | nil =>
    intro parsed h
    unfold parseRows at h
    cases h
    rfl
  | cons r rest ih =>
    intro parsed h
    unfold parseRows at h
    cases hp : parseLine cfg r with
    | error e => rw [hp] at h; cases h
    | ok entry =>
      rw [hp] at h
      cases ht : parseRows cfg rest with
      | error e =>
        rw [ht] at h
        cases h
      | ok tail =>
        rw [ht] at h
        cases h
        simp [ih tail ht]

theorem attemptStep_container_fail (env : Env) (ds : Dataset) (iTry index : Nat)
    (kpts : KptsCache) (hidx : index < ds.paths.length)
    (hc : env.containerOk iTry index = false) :
    attemptStep env ds iTry index kpts =
      if ds.mode ≠ .test ∧ ds.numRetries / 8 < iTry then .retry (env.rand iTry) kpts
      else .retry index kpts := by
  unfold attemptStep
  rw [if_neg (by omega)]
  dsimp only
  rw [if_pos hc]

theorem attemptStep_kpts_file_missing (env : Env) (ds : Dataset) (iTry index : Nat)
    (kpts : KptsCache) (hidx : index < ds.paths.length)
    (hc : env.containerOk iTry index = true)
    (hlk : kpts.lookup index = none)
    (hfile : env.kptsFile (deriveKptsId (ds.paths.getD index "")) = none) :
    attemptStep env ds iTry index kpts =
      .fail (.kptsFileNotFound (kptsSideFilePath (ds.paths.getD index ""))) kpts := by
  unfold attemptStep
  rw [if_neg (by omega)]
  dsimp only
  rw [if_neg (by simp [hc]), hlk, hfile]

theorem attemptStep_resolved (env : Env) (ds : Dataset) (iTry index : Nat)
    (kpts kpts2 : KptsCache) (store : KptsStore)
    (hidx : index < ds.paths.length)
    (hc : env.containerOk iTry index = true)
    (hres : (kpts.lookup index = some store ∧ kpts2 = kpts) ∨
      (kpts.lookup index = none ∧
       env.kptsFile (deriveKptsId (ds.paths.getD index "")) = some store ∧
       kpts2 = (index, store) :: kpts)) :
    attemptStep env ds iTry index kpts =
      if framesBad (env.decodeFrames iTry index) then
        if ds.mode ≠ .test then
          match ds.numRetries / 8 with
          | 0 => .fail .zeroDivisionError kpts2
          | d + 1 =>
            if iTry % (d + 1) = 0 then .retry (env.rand iTry) kpts2
            else .retry index kpts2
        else .retry index kpts2
      else
        match alignAll store (ds.paths.getD index "") (env.decodeBboxIdx iTry index) with
        | .error e => .fail e kpts2
        | .ok bboxes =>
          if index ≥ ds.labels.length then .fail .indexError kpts2
          else
            .finish ⟨(if ds.cfg.numClasses = 2 ∧ ds.labels.getD index 0 > 0 then 1
                      else ds.labels.getD index 0), index, bboxes⟩ kpts2 := by
  unfold attemptStep
  rw [if_neg (by omega)]
  dsimp only
  rw [if_neg (by simp [hc])]
  rcases hres with ⟨hlk, hk2⟩ | ⟨hlk, hfile, hk2⟩
  · rw [hlk, hk2]
  · rw [hlk, hfile, hk2]

theorem attemptStep_retry_cases (env : Env) (ds : Dataset) (iTry index : Nat)
    (kpts : KptsCache) :
    ∀ i' k', attemptStep env ds iTry index kpts = .retry i' k' →
      i' = index ∨ (ds.mode ≠ .test ∧ i' = env.rand iTry) := by
  intro i' k' h
  unfold attemptStep at h
  split at h
  · cases h
  · dsimp only at h
    split at h
    · split at h
      · rename_i hcond
        cases h
        exact Or.inr ⟨hcond.1, rfl⟩
      · cases h
        exact Or.inl rfl
    · split at h
      · cases h
      · split at h
        · split at h
          · split at h
            · cases h
            · split at h
              · cases h
                exact Or.inr ⟨by assumption, rfl⟩
              · cases h
                exact Or.inl rfl
          · cases h
            exact Or.inl rfl
        · split at h
          · cases h
          · split at h <;> cases h

theorem attemptStep_allfail_retry (env : Env) (ds : Dataset) (iTry index : Nat)
    (kpts : KptsCache)
    (hidx : index < ds.paths.length)
    (hnr8 : 8 ≤ ds.numRetries)
    (hfail : env.containerOk iTry index = false ∨
      framesBad (env.decodeFrames iTry index) = true)
    (hkpts : (env.kptsFile (deriveKptsId (ds.paths.getD index ""))).isSome) :
    ∃ index' kpts', attemptStep env ds iTry index kpts = .retry index' kpts' ∧
      (index' = index ∨ index' = env.rand iTry) := by
  cases hc : env.containerOk iTry index with
  | false =>
    rw [attemptStep_container_fail env ds iTry index kpts hidx hc]
    by_cases hcond : ds.mode ≠ .test ∧ ds.numRetries / 8 < iTry
    · rw [if_pos hcond]
      exact ⟨env.rand iTry, kpts, rfl, Or.inr rfl⟩
    · rw [if_neg hcond]
      exact ⟨index, kpts, rfl, Or.inl rfl⟩
  | true =>
    have hbad : framesBad (env.decodeFrames iTry index) = true := by
      rcases hfail with h | h
      · rw [hc] at h; cases h
      · exact h
    have hdiv : 1 ≤ ds.numRetries / 8 := (Nat.one_le_div_iff (by norm_num)).mpr hnr8
    obtain ⟨d, hd⟩ : ∃ d, ds.numRetries / 8 = d + 1 :=
      ⟨ds.numRetries / 8 - 1, by omega⟩
    have hres : ∃ kpts2 store,
        (kpts.lookup index = some store ∧ kpts2 = kpts) ∨
        (kpts.lookup index = none ∧
         env.kptsFile (deriveKptsId (ds.paths.getD index "")) = some store ∧
         kpts2 = (index, store) :: kpts) := by
      cases hlk : kpts.lookup index with
      | some store => exact ⟨kpts, store, Or.inl ⟨rfl, rfl⟩⟩
      | none =>
        cases hfile : env.kptsFile (deriveKptsId (ds.paths.getD index "")) with
        | none => rw [hfile] at hkpts; cases hkpts
        | some store => exact ⟨(index, store) :: kpts, store, Or.inr ⟨rfl, rfl, rfl⟩⟩
    obtain ⟨kpts2, store, hres⟩ := hres
    rw [attemptStep_resolved env ds iTry index kpts kpts2 store hidx hc hres]
    rw [if_pos hbad]
    by_cases hmode : ds.mode ≠ .test
    · rw [if_pos hmode, hd]
      dsimp only
      by_cases hmod : iTry % (d + 1) = 0
      · rw [if_pos hmod]
        exact ⟨env.rand iTry, kpts2, rfl, Or.inr rfl⟩
      · rw [if_neg hmod]
        exact ⟨index, kpts2, rfl, Or.inl rfl⟩
    · rw [if_neg hmode]
      exact ⟨index, kpts2, rfl, Or.inl rfl⟩

theorem fetchGo_attempts_le (env : Env) (ds : Dataset) :
    ∀ rem iTry kpts index, (fetchGo env ds rem iTry kpts index).attempts ≤ rem := by
  intro rem
  induction rem with
  | zero =>
    intro iTry kpts index
    unfold fetchGo
    split <;> rfl
  | succ r ih =>
    intro iTry kpts index
    unfold fetchGo
    cases h : attemptStep env ds iTry index kpts with
    | fail e k => simp
    | finish o k => simp
    | retry i' k =>
      dsimp only
      exact Nat.succ_le_succ (ih (iTry + 1) k i')

theorem fetchGo_exhaust (env : Env) (ds : Dataset)
    (hnr8 : 8 ≤ ds.numRetries)
    (hrand : ∀ t, env.rand t < ds.paths.length)
    (hfail : ∀ t i, i < ds.paths.length →
      env.containerOk t i = false ∨ framesBad (env.decodeFrames t i) = true)
    (hkpts : ∀ i, i < ds.paths.length →
      (env.kptsFile (deriveKptsId (ds.paths.getD i ""))).isSome) :
    ∀ rem iTry kpts index, index < ds.paths.length →
      ∃ j kpts', j < ds.paths.length ∧
        fetchGo env ds rem iTry kpts index =
          ⟨.error (.exhausted j (ds.paths.getD j "")), kpts', rem⟩ := by
  intro rem
  induction rem with
  | zero =>
    intro iTry kpts index hidx
    refine ⟨index, kpts, hidx, ?_⟩
    unfold fetchGo
    rw [if_pos hidx]
  | succ r ih =>
    intro iTry kpts index hidx
    obtain ⟨i', k', hstep, hor⟩ :=
      attemptStep_allfail_retry env ds iTry index kpts hidx hnr8
        (hfail iTry index hidx) (hkpts index hidx)
    have hi' : i' < ds.paths.length := by
      rcases hor with h | h
      · rw [h]; exact hidx
      · rw [h]; exact hrand iTry
    obtain ⟨j, k'', hj, hrec⟩ := ih (iTry + 1) k' i' hi'
    refine ⟨j, k'', hj, ?_⟩
    unfold fetchGo
    rw [hstep]
    dsimp only
    rw [hrec]

/-! Claim theorems. -/

/-- C3: in test mode the selection computes
`temporal_sample_index = stored // NUM_SPATIAL_CROPS` and
`spatial_sample_index = stored % NUM_SPATIAL_CROPS` when
`NUM_SPATIAL_CROPS > 1`, else the constant `1` (center); concretely stored
index 5 with 3 crops gives temporal 1 and spatial 2, and with 1 crop the
spatial index is 1 for every stored index. -/
theorem C3_test_mode_sampling :
    (∀ (cfg : Cfg) (stIdx : Nat), 1 ≤ cfg.numSpatialCrops →
      ∃ p, sampleParams cfg .test stIdx = .ok p ∧
        p.temporalIdx = ((stIdx / cfg.numSpatialCrops : Nat) : Int) ∧
        p.spatialIdx =
          (if 1 < cfg.numSpatialCrops then ((stIdx % cfg.numSpatialCrops : Nat) : Int)
           else 1)) ∧
    (∃ p, sampleParams egCfg .test 5 = .ok p ∧ p.temporalIdx = 1 ∧ p.spatialIdx = 2) ∧
    (∀ stIdx : Nat, ∃ p,
      sampleParams egCfgOneCrop .test stIdx = .ok p ∧ p.spatialIdx = 1) := by
  refine ⟨?_, ?_, ?_⟩
  · intro cfg stIdx h1
    obtain ⟨n, hn⟩ : ∃ n, cfg.numSpatialCrops = n + 1 :=
      ⟨cfg.numSpatialCrops - 1, by omega⟩
    unfold sampleParams
    rw [hn]
    dsimp only
    by_cases hgt : n + 1 > 1
    · refine ⟨⟨((stIdx / (n + 1) : Nat) : Int), ((stIdx % (n + 1) : Nat) : Int),
        cfg.testCropSize, cfg.testCropSize, cfg.testCropSize⟩, ?_, rfl, ?_⟩
      · simp [hgt]
      · simp [hgt]
    · refine ⟨⟨((stIdx / (n + 1) : Nat) : Int), 1,
        cfg.trainJitterScales.1, cfg.trainJitterScales.1, cfg.testCropSize⟩, ?_, rfl, ?_⟩
      · simp [hgt]
      · simp [hgt]
  · exact ⟨⟨1, 2, 224, 224, 224⟩, by decide, rfl, rfl⟩
  · intro stIdx
    refine ⟨⟨((stIdx / 1 : Nat) : Int), 1, 224, 224, 224⟩, ?_, rfl⟩
    norm_num [sampleParams, egCfgOneCrop]

/-- C3 witness: the general statement applied to the three-crop
configuration at stored index 5. -/
theorem C3_witness :
    1 ≤ egCfg.numSpatialCrops ∧
    (∃ p, sampleParams egCfg .test 5 = .ok p ∧
      p.temporalIdx = ((5 / egCfg.numSpatialCrops : Nat) : Int) ∧
      p.spatialIdx =
        (if 1 < egCfg.numSpatialCrops then ((5 % egCfg.numSpatialCrops : Nat) : Int)
         else 1)) :=
  ⟨by decide, C3_test_mode_sampling.1 egCfg 5 (by decide)⟩

/-- C4 (amended): in train and val modes the selection sets
`temporal_sample_index = -1` and `spatial_sample_index = -1` for every
requested index, takes min/max scale from the configured training jitter
range, uses the hardcoded crop size `256` (not the configured
`TRAIN_CROP_SIZE`, whose read is commented out), and fails an assertion
unless `min_scale == max_scale == 256`. -/
theorem C4_train_val_sampling (cfg : Cfg) (m : Mode)
    (hm : m = .train ∨ m = .val) :
    (∀ stIdx : Nat, sampleParams cfg m stIdx = sampleParams cfg m 0) ∧
    (cfg.trainJitterScales.1 = cfg.trainJitterScales.2 ∧
        cfg.trainJitterScales.2 = 256 →
      sampleParams cfg m 0 =
        .ok ⟨-1, -1, cfg.trainJitterScales.1, cfg.trainJitterScales.2, 256⟩) ∧
    (¬(cfg.trainJitterScales.1 = cfg.trainJitterScales.2 ∧
        cfg.trainJitterScales.2 = 256) →
      sampleParams cfg m 0 = .error .assertionError) := by
  rcases hm with rfl | rfl <;>
  · refine ⟨fun _ => rfl, ?_, ?_⟩
    · rintro ⟨h1, h2⟩
      unfold sampleParams
      rw [if_pos h1, if_pos h2]
    · intro hnot
      unfold sampleParams
      by_cases h1 : cfg.trainJitterScales.1 = cfg.trainJitterScales.2
      · rw [if_pos h1, if_neg (fun h2 => hnot ⟨h1, h2⟩)]
      · rw [if_neg h1]

/-- C4 counterexample: a configuration whose training jitter range and
configured `TRAIN_CROP_SIZE` all agree at 224 — by the claim the assertion
`min_scale == max_scale == crop_size` should pass — yet the selection
fails its assertion, because the crop size the code compares against is
the hardcoded 256. -/
theorem C4_counterexample :
    egCfg224.trainJitterScales.1 = egCfg224.trainCropSize ∧
    egCfg224.trainJitterScales.2 = egCfg224.trainCropSize ∧
    sampleParams egCfg224 .train 0 = .error .assertionError := by
  refine ⟨rfl, rfl, ?_⟩
  decide

/-- C4 witness: the amended statement applied to the 256-jitter
configuration in train mode, with the assertion hypotheses discharged. -/
theorem C4_witness :
    (Mode.train = Mode.train ∨ Mode.train = Mode.val) ∧
    (egCfg.trainJitterScales.1 = egCfg.trainJitterScales.2 ∧
      egCfg.trainJitterScales.2 = 256) ∧
    sampleParams egCfg .train 0 =
      .ok ⟨-1, -1, egCfg.trainJitterScales.1, egCfg.trainJitterScales.2, 256⟩ :=
  ⟨Or.inl rfl, by decide,
    (C4_train_val_sampling egCfg .train (Or.inl rfl)).2.1 (by decide)⟩

/-- C5: manifest parsing — a 2-field line is `(path, label)`, a 3-field line
is `(path, label)` with the middle field ignored, a 1-field line is
`(path, 0)`, any other field count is a fatal construction error, as are a
missing manifest file and an empty parse result; `"a.mp4,3"` with separator
`,` yields an entry whose path ends in `a.mp4`, label 3 and
spatial-temporal index 0. -/
theorem C5_manifest_parsing :
    (∀ cfg line path label n, pySplit cfg.pathLabelSeparator line = [path, label] →
      pyParseInt label = some n → parseLine cfg line = .ok (path, n)) ∧
    (∀ cfg line path mid label n,
      pySplit cfg.pathLabelSeparator line = [path, mid, label] →
      pyParseInt label = some n → parseLine cfg line = .ok (path, n)) ∧
    (∀ cfg line path, pySplit cfg.pathLabelSeparator line = [path] →
      parseLine cfg line = .ok (path, 0)) ∧
    (∀ cfg line, (pySplit cfg.pathLabelSeparator line).length ≠ 1 →
      (pySplit cfg.pathLabelSeparator line).length ≠ 2 →
      (pySplit cfg.pathLabelSeparator line).length ≠ 3 →
      parseLine cfg line = .error .badLineShape) ∧
    (∀ cfg, constructLoader cfg none = .error .missingManifest) ∧
    (∀ cfg, constructLoader cfg (some []) = .error .emptyManifest) ∧
    (∃ d, constructLoader egCfgData (some ["a.mp4,3"]) = .ok d ∧
      pyEndsWith (d.paths.getD 0 "") "a.mp4" = true ∧
      d.labels = [3] ∧ d.stIdxs = [0]) := by
  refine ⟨?_, ?_, ?_, ?_, fun _ => rfl, fun _ => rfl, ?_⟩
  · intro cfg line path label n hsplit hint
    unfold parseLine
    rw [hsplit]
    dsimp only
    rw [hint]
  · intro cfg line path mid label n hsplit hint
    unfold parseLine
    rw [hsplit]
    dsimp only
    rw [hint]
  · intro cfg line path hsplit
    unfold parseLine
    rw [hsplit]
  · intro cfg line h1 h2 h3
    unfold parseLine
    rcases hs : pySplit cfg.pathLabelSeparator line with _ | ⟨a, _ | ⟨b, _ | ⟨c, _ | ⟨d, t⟩⟩⟩⟩
    · rfl
    · exact absurd (by rw [hs]; rfl) h1
    · exact absurd (by rw [hs]; rfl) h2
    · exact absurd (by rw [hs]; rfl) h3
    · rfl
  · exact ⟨⟨["/data/a.mp4"], [3], [0]⟩, by decide, by decide, rfl, rfl⟩

/-- C5 witness: the 2-field branch applied to the concrete line
`"a.mp4,3"` with separator `,`. -/
theorem C5_witness :
    pySplit egCfgData.pathLabelSeparator "a.mp4,3" = ["a.mp4", "3"] ∧
    pyParseInt "3" = some 3 ∧
    parseLine egCfgData "a.mp4,3" = .ok ("a.mp4", 3) :=
  ⟨by decide, by decide,
    C5_manifest_parsing.1 egCfgData "a.mp4,3" "a.mp4" "3" 3 (by decide) (by decide)⟩

/-- C6: after a successful construction the three manifest arrays have
equal length, that length is the number of parsed manifest entries and is
what `__len__` reports, and the arrays are untouched by every subsequent
operation (`__getitem__` and `_set_epoch_num` leave them unchanged). -/
theorem C6_parallel_arrays :
    (∀ cfg rows d, constructLoader cfg (some rows) = .ok d →
      d.paths.length = d.labels.length ∧ d.labels.length = d.stIdxs.length ∧
      d.paths.length = rows.length ∧
      ∀ mode nr, numVideos (mkKinetics cfg mode nr d) = rows.length) ∧
    (∀ env st index, ((getitem env st index).2).ds = st.ds) ∧
    (∀ st e, (setEpochNum st e).ds = st.ds) := by
  refine ⟨?_, ?_, fun _ _ => rfl⟩
  · intro cfg rows d h
    unfold constructLoader at h
    dsimp only at h
    cases hp : parseRows cfg rows with
    | error e => rw [hp] at h; cases h
    | ok parsed =>
      rw [hp] at h
      dsimp only [Except.bind, bind] at h
      split at h
      · cases h
        have hlen := parseRows_length cfg rows parsed hp
        refine ⟨by simp, by simp, by simp [hlen], ?_⟩
        intro mode nr
        unfold numVideos mkKinetics
        simp [hlen]
      · cases h
  · intro env st index
    unfold getitem
    cases selectAt st.ds index with
    | error e => rfl
    | ok p =>
      dsimp only
      split
      · split <;> rfl
      · rfl

/-- C6 witness: the construction invariant applied to the one-line
manifest `"a.mp4,3"`. -/
theorem C6_witness :
    constructLoader egCfgData (some ["a.mp4,3"]) = .ok ⟨["/data/a.mp4"], [3], [0]⟩ ∧
    (["/data/a.mp4"].length = [(3 : Int)].length ∧
     [(3 : Int)].length = [(0 : Nat)].length ∧
     ["/data/a.mp4"].length = ["a.mp4,3"].length ∧
     ∀ mode nr,
       numVideos (mkKinetics egCfgData mode nr ⟨["/data/a.mp4"], [3], [0]⟩) =
         ["a.mp4,3"].length) :=
  ⟨by decide, C6_parallel_arrays.1 egCfgData ["a.mp4,3"] ⟨["/data/a.mp4"], [3], [0]⟩
    (by decide)⟩

/-- C7: the bounding-box alignment reduces every non-empty polygon to the
axis-aligned rectangle of the componentwise min/max of its
integer-truncated coordinates, with corners in the fixed clockwise order
starting at the minimum corner; concretely `[(2,7),(8,3),(5,10)]` becomes
`[(2,3),(8,3),(8,10),(2,10)]`. -/
theorem C7_bbox_alignment :
    (∀ box : List (ℚ × ℚ), box ≠ [] →
      ∃ xMin xMax yMin yMax : Int,
        alignBox box = some [(xMin, yMin), (xMax, yMin), (xMax, yMax), (xMin, yMax)] ∧
        (∀ p ∈ box, xMin ≤ pyInt p.1 ∧ pyInt p.1 ≤ xMax ∧
          yMin ≤ pyInt p.2 ∧ pyInt p.2 ≤ yMax) ∧
        xMin ∈ box.map (fun p => pyInt p.1) ∧ xMax ∈ box.map (fun p => pyInt p.1) ∧
        yMin ∈ box.map (fun p => pyInt p.2) ∧ yMax ∈ box.map (fun p => pyInt p.2)) ∧
    alignBox [(2, 7), (8, 3), (5, 10)] = some [(2, 3), (8, 3), (8, 10), (2, 10)] := by
  constructor
  · intro box hne
    match box, hne with
    | p :: rest, _ =>
      refine ⟨(rest.map fun q => pyInt q.1).foldl min (pyInt p.1),
              (rest.map fun q => pyInt q.1).foldl max (pyInt p.1),
              (rest.map fun q => pyInt q.2).foldl min (pyInt p.2),
              (rest.map fun q => pyInt q.2).foldl max (pyInt p.2),
              ?_, ?_, ?_, ?_, ?_, ?_⟩
      · simp [alignBox, pyMin, pyMax]
      · intro q hq
        rcases List.mem_cons.mp hq with h | h
        · subst h
          exact ⟨foldl_min_le_init _ _, le_foldl_max_init _ _,
            foldl_min_le_init _ _, le_foldl_max_init _ _⟩
        · exact ⟨foldl_min_le_mem _ _ _ (List.mem_map_of_mem _ h),
            le_foldl_max_mem _ _ _ (List.mem_map_of_mem _ h),
            foldl_min_le_mem _ _ _ (List.mem_map_of_mem _ h),
            le_foldl_max_mem _ _ _ (List.mem_map_of_mem _ h)⟩
      · simpa using foldl_min_mem (rest.map fun q => pyInt q.1) (pyInt p.1)
      · simpa using foldl_max_mem (rest.map fun q => pyInt q.1) (pyInt p.1)
      · simpa using foldl_min_mem (rest.map fun q => pyInt q.2) (pyInt p.2)
      · simpa using foldl_max_mem (rest.map fun q => pyInt q.2) (pyInt p.2)
  · decide

/-- C7 witness: the general reduction applied to the concrete triangle
`[(2,7),(8,3),(5,10)]`. -/
theorem C7_witness :
    (([(2, 7), (8, 3), (5, 10)] : List (ℚ × ℚ)) ≠ []) ∧
    (∃ xMin xMax yMin yMax : Int,
      alignBox [(2, 7), (8, 3), (5, 10)] =
        some [(xMin, yMin), (xMax, yMin), (xMax, yMax), (xMin, yMax)] ∧
      (∀ p ∈ ([(2, 7), (8, 3), (5, 10)] : List (ℚ × ℚ)),
        xMin ≤ pyInt p.1 ∧ pyInt p.1 ≤ xMax ∧ yMin ≤ pyInt p.2 ∧ pyInt p.2 ≤ yMax) ∧
      xMin ∈ ([(2, 7), (8, 3), (5, 10)] : List (ℚ × ℚ)).map (fun p => pyInt p.1) ∧
      xMax ∈ ([(2, 7), (8, 3), (5, 10)] : List (ℚ × ℚ)).map (fun p => pyInt p.1) ∧
      yMin ∈ ([(2, 7), (8, 3), (5, 10)] : List (ℚ × ℚ)).map (fun p => pyInt p.2) ∧
      yMax ∈ ([(2, 7), (8, 3), (5, 10)] : List (ℚ × ℚ)).map (fun p => pyInt p.2)) :=
  ⟨by decide, C7_bbox_alignment.1 [(2, 7), (8, 3), (5, 10)] (by decide)⟩

/-- C8 (amended): when the tabular reader rejects the current row-skip
offset, the chunk loader resets the offset to zero and retries; whenever
the reader accepts offset zero, the operation succeeds after at most two
read attempts.  (A reader that also rejects offset zero makes the loader
recurse again instead of stopping, so the two-attempt bound does not hold
for every reader; see the counterexample.) -/
theorem C8_chunk_retry (reader : Nat → Option Nat) (skip fuel : Nat)
    (h0 : (reader 0).isSome) (hfuel : 2 ≤ fuel) :
    (getChunk reader skip fuel).1.isSome ∧ (getChunk reader skip fuel).2 ≤ 2 := by
  obtain ⟨f, rfl⟩ : ∃ f, fuel = f + 1 + 1 := ⟨fuel - 2, by omega⟩
  cases hs : reader skip with
  | some c =>
    constructor <;> simp [getChunk, hs]
  | none =>
    cases h0c : reader 0 with
    | none => rw [h0c] at h0; cases h0
    | some c =>
      constructor <;> simp [getChunk, hs, h0c]

/-- C8 counterexample: with a reader that rejects every skip offset, the
chunk loader keeps resetting and retrying — within a recursion budget of 3
it makes 3 read attempts and still has no result — so it does not
"terminate after at most two read attempts for every reader", and the
recovery is not "never fatal" (Python eventually dies with
`RecursionError`). -/
theorem C8_counterexample :
    getChunk (fun _ => none) 5 3 = (none, 3) := by decide

/-- C8 witness: the amended bound applied to a reader that accepts only
skip offset zero, starting from offset 5. -/
theorem C8_witness :
    ((fun s => if s = 0 then some 7 else none) 0 : Option Nat).isSome ∧
    2 ≤ 3 ∧
    ((getChunk (fun s => if s = 0 then some 7 else none) 5 3).1.isSome ∧
     (getChunk (fun s => if s = 0 then some 7 else none) 5 3).2 ≤ 2) :=
  ⟨by decide, by decide,
    C8_chunk_retry (fun s => if s = 0 then some 7 else none) 5 3 (by decide) (by decide)⟩

/-- C2: during the retry loop the current index is never replaced in test
mode (any replacement that does happen is the random draw); in non-test
modes a container-acquisition failure replaces the index exactly when
`i_try > num_retries // 8`, while a decode-validation failure replaces it
exactly when `i_try % (num_retries // 8) == 0` — so validation-failure
replacement already fires on the very first attempt (`i_try = 0`). -/
theorem C2_index_replacement (env : Env) (ds : Dataset) (iTry index : Nat)
    (kpts : KptsCache) :
    (ds.mode = .test → ∀ i' k',
      attemptStep env ds iTry index kpts = .retry i' k' → i' = index) ∧
    (∀ i' k', attemptStep env ds iTry index kpts = .retry i' k' →
      i' = index ∨ i' = env.rand iTry) ∧
    (index < ds.paths.length → ds.mode ≠ .test →
      env.containerOk iTry index = false →
      attemptStep env ds iTry index kpts =
        .retry (if ds.numRetries / 8 < iTry then env.rand iTry else index) kpts) ∧
    (∀ store, index < ds.paths.length → ds.mode ≠ .test →
      env.containerOk iTry index = true →
      kpts.lookup index = some store →
      framesBad (env.decodeFrames iTry index) = true →
      1 ≤ ds.numRetries / 8 →
      attemptStep env ds iTry index kpts =
        .retry (if iTry % (ds.numRetries / 8) = 0 then env.rand iTry else index) kpts) ∧
    (∀ store, iTry = 0 → index < ds.paths.length → ds.mode ≠ .test →
      env.containerOk iTry index = true →
      kpts.lookup index = some store →
      framesBad (env.decodeFrames iTry index) = true →
      1 ≤ ds.numRetries / 8 →
      attemptStep env ds iTry index kpts = .retry (env.rand iTry) kpts) := by
  have hval : ∀ store, index < ds.paths.length → ds.mode ≠ .test →
      env.containerOk iTry index = true →
      kpts.lookup index = some store →
      framesBad (env.decodeFrames iTry index) = true →
      1 ≤ ds.numRetries / 8 →
      attemptStep env ds iTry index kpts =
        .retry (if iTry % (ds.numRetries / 8) = 0 then env.rand iTry else index) kpts := by
    intro store hidx hmode hc hlk hbad hdiv
    obtain ⟨d, hd⟩ : ∃ d, ds.numRetries / 8 = d + 1 :=
      ⟨ds.numRetries / 8 - 1, by omega⟩
    rw [attemptStep_resolved env ds iTry index kpts kpts store hidx hc
      (Or.inl ⟨hlk, rfl⟩)]
    rw [if_pos hbad, if_pos hmode, hd]
    dsimp only
    by_cases hmod : iTry % (d + 1) = 0 <;> simp [hmod]
  refine ⟨?_, ?_, ?_, hval, ?_⟩
  · intro hmode i' k' h
    rcases attemptStep_retry_cases env ds iTry index kpts i' k' h with h1 | ⟨h1, _⟩
    · exact h1
    · exact absurd hmode h1
  · intro i' k' h
    rcases attemptStep_retry_cases env ds iTry index kpts i' k' h with h1 | ⟨_, h1⟩
    · exact Or.inl h1
    · exact Or.inr h1
  · intro hidx hmode hc
    rw [attemptStep_container_fail env ds iTry index kpts hidx hc]
    by_cases hgt : ds.numRetries / 8 < iTry
    · rw [if_pos ⟨hmode, hgt⟩, if_pos hgt]
    · rw [if_neg (fun hand => hgt hand.2), if_neg hgt]
  · intro store h0 hidx hmode hc hlk hbad hdiv
    rw [hval store hidx hmode hc hlk hbad hdiv, h0]
    simp

/-- C2 witness: the container-failure and validation-failure branches at
concrete inputs — in a train-mode dataset with `num_retries = 8`, a
container failure at `i_try = 0` keeps the index (`0 > 8 // 8` is false),
while a validation failure at `i_try = 0` replaces it at once
(`0 % (8 // 8) == 0`). -/
theorem C2_witness :
    (attemptStep egEnvNoContainer ⟨egCfg, .train, 8, ["v"], [0], [0]⟩ 0 0 [] =
      .retry (if (8 : Nat) / 8 < 0 then egEnvNoContainer.rand 0 else 0) []) ∧
    (attemptStep egEnvNullFrames ⟨egCfg, .train, 8, ["v"], [0], [0]⟩ 0 0 [(0, [])] =
      .retry (egEnvNullFrames.rand 0) [(0, [])]) :=
  ⟨(C2_index_replacement egEnvNoContainer ⟨egCfg, .train, 8, ["v"], [0], [0]⟩ 0 0
      []).2.2.1 (by decide) (by decide) (by decide),
   (C2_index_replacement egEnvNullFrames ⟨egCfg, .train, 8, ["v"], [0], [0]⟩ 0 0
      [(0, [])]).2.2.2.2 [] rfl (by decide) (by decide) (by decide) (by decide)
      (by decide) (by decide)⟩

/-- C9: with `num_retries < 8` in train or val mode, an attempt whose
container opens but whose decode result fails validation evaluates
`i_try % (num_retries // 8)` with a zero divisor, so the fetch raises
`ZeroDivisionError` on its first such attempt instead of continuing the
bounded retry loop. -/
theorem C9_div_zero_small_budget (env : Env) (ds : Dataset) (kpts : KptsCache)
    (store : KptsStore) (epoch : ℚ) (index : Nat)
    (hmode : ds.mode = .train ∨ ds.mode = .val)
    (hjit : ds.cfg.trainJitterScales = (256, 256))
    (hnr1 : 1 ≤ ds.numRetries) (hnr8 : ds.numRetries < 8)
    (hidx : index < ds.paths.length)
    (hc : env.containerOk 0 index = true)
    (hbad : framesBad (env.decodeFrames 0 index) = true)
    (hlk : kpts.lookup index = some store) :
    attemptStep env ds 0 index kpts = .fail .zeroDivisionError kpts ∧
    (getitem env ⟨ds, kpts, epoch⟩ index).1 = ⟨.error .zeroDivisionError, 1⟩ := by
  have hdiv : ds.numRetries / 8 = 0 := Nat.div_eq_of_lt hnr8
  have hntest : ds.mode ≠ .test := by rcases hmode with h | h <;> simp [h]
  have hstep : attemptStep env ds 0 index kpts = .fail .zeroDivisionError kpts := by
    rw [attemptStep_resolved env ds 0 index kpts kpts store hidx hc
      (Or.inl ⟨hlk, rfl⟩)]
    rw [if_pos hbad, if_pos hntest, hdiv]
  refine ⟨hstep, ?_⟩
  have hsel : selectAt ds index = .ok ⟨-1, -1, 256, 256, 256⟩ := by
    unfold selectAt
    rcases hmode with h | h <;>
    · rw [h]
      dsimp only
      unfold sampleParams
      rw [hjit]
      rfl
  unfold getitem
  rw [hsel]
  dsimp only
  rw [if_neg (by omega)]
  obtain ⟨r, hr⟩ : ∃ r, ds.numRetries = r + 1 := ⟨ds.numRetries - 1, by omega⟩
  rw [hr]
  unfold fetchGo
  rw [hstep]

/-- C9 witness: a train-mode dataset with `num_retries = 2`, a container
that opens, a decoder returning a null frame list, and a cached keypoint
store. -/
theorem C9_witness :
    (egDsRetries2.mode = .train ∨ egDsRetries2.mode = .val) ∧
    egDsRetries2.numRetries < 8 ∧
    (attemptStep egEnvNullFrames egDsRetries2 0 0 [(0, [])] =
      .fail .zeroDivisionError [(0, [])] ∧
     (getitem egEnvNullFrames ⟨egDsRetries2, [(0, [])], 0⟩ 0).1 =
      ⟨.error .zeroDivisionError, 1⟩) :=
  ⟨Or.inl rfl, by decide,
    C9_div_zero_small_budget egEnvNullFrames egDsRetries2 [(0, [])] [] 0 0
      (Or.inl rfl) (by decide) (by decide) (by decide) (by decide) (by decide)
      (by decide) (by decide)⟩

theorem alignAll_cons_error (store : KptsStore) (path : String)
    (frameNum : Nat) (rest : List Nat) (e : FetchErr)
    (h : alignFrame store (vidNameOf path) frameNum = .error e) :
    alignAll store path (frameNum :: rest) = .error e := by
  unfold alignAll
  simp only [List.mapM, List.mapM.loop, h]
  rfl

theorem alignFrame_no_vid (store : KptsStore) (vidName : String) (frameNum : Nat)
    (h : store.lookup vidName = none) :
    alignFrame store vidName frameNum = .error (.keyErrorVid vidName) := by
  unfold alignFrame
  rw [h]

theorem alignFrame_no_frame (store : KptsStore) (vidName : String)
    (frameNum : Nat) (frameMap : List (String × List (List (ℚ × ℚ))))
    (hvid : store.lookup vidName = some frameMap)
    (hframe : frameMap.lookup ("frame" ++ toString frameNum) = none) :
    alignFrame store vidName frameNum =
      .error (.keyErrorFrame ("frame" ++ toString frameNum)) := by
  unfold alignFrame
  dsimp only
  rw [hvid]
  dsimp only
  rw [hframe]

/-- C10: the bounding-box side file is `./data/video{ID}_kpts` with `ID`
the video path sliced from character 40 to (length − 10); it is loaded on
the first access to an index and cached keyed by that dataset index; a
missing file, a missing per-video key (file name with its last 10
characters replaced by `.mp4`) or a missing per-frame key escapes the
fetch immediately — exactly one loop iteration is begun even though the
retry budget is not exhausted — despite container acquisition (and, for
the key errors, decoding) having succeeded. -/
theorem C10_kpts_side_file (env : Env) (ds : Dataset) (kpts : KptsCache)
    (epoch : ℚ) (index : Nat) (p : SampleParams)
    (hsel : selectAt ds index = .ok p)
    (hnr : 1 ≤ ds.numRetries)
    (hidx : index < ds.paths.length)
    (hc : env.containerOk 0 index = true) :
    (kptsSideFilePath (ds.paths.getD index "") =
      "./data/video" ++ pySliceDrop (ds.paths.getD index "") 40 10 ++ "_kpts") ∧
    (kpts.lookup index = none →
      env.kptsFile (deriveKptsId (ds.paths.getD index "")) = none →
      (getitem env ⟨ds, kpts, epoch⟩ index).1 =
        ⟨.error (.kptsFileNotFound (kptsSideFilePath (ds.paths.getD index ""))), 1⟩) ∧
    (∀ store, kpts.lookup index = none →
      env.kptsFile (deriveKptsId (ds.paths.getD index "")) = some store →
      (attemptStep env ds 0 index kpts).cache = (index, store) :: kpts) ∧
    (∀ store frameNum rest, kpts.lookup index = some store →
      framesBad (env.decodeFrames 0 index) = false →
      env.decodeBboxIdx 0 index = frameNum :: rest →
      store.lookup (vidNameOf (ds.paths.getD index "")) = none →
      (getitem env ⟨ds, kpts, epoch⟩ index).1 =
        ⟨.error (.keyErrorVid (vidNameOf (ds.paths.getD index ""))), 1⟩) ∧
    (∀ store frameMap frameNum rest, kpts.lookup index = some store →
      framesBad (env.decodeFrames 0 index) = false →
      env.decodeBboxIdx 0 index = frameNum :: rest →
      store.lookup (vidNameOf (ds.paths.getD index "")) = some frameMap →
      frameMap.lookup ("frame" ++ toString frameNum) = none →
      (getitem env ⟨ds, kpts, epoch⟩ index).1 =
        ⟨.error (.keyErrorFrame ("frame" ++ toString frameNum)), 1⟩) := by
  have hwrap : ∀ e k', attemptStep env ds 0 index kpts = StepOut.fail e k' →
      (getitem env ⟨ds, kpts, epoch⟩ index).1 = ⟨.error e, 1⟩ := by
    intro e k' hstep
    unfold getitem
    rw [hsel]
    dsimp only
    rw [if_neg (by omega)]
    obtain ⟨r, hr⟩ : ∃ r, ds.numRetries = r + 1 := ⟨ds.numRetries - 1, by omega⟩
    rw [hr]
    unfold fetchGo
    rw [hstep]
  refine ⟨rfl, ?_, ?_, ?_, ?_⟩
  · intro hlk hfile
    exact hwrap _ _ (attemptStep_kpts_file_missing env ds 0 index kpts hidx hc hlk hfile)
  · intro store hlk hfile
    rw [attemptStep_resolved env ds 0 index kpts ((index, store) :: kpts) store hidx hc
      (Or.inr ⟨hlk, hfile, rfl⟩)]
    split
    · split
      · split
        · rfl
        · split <;> rfl
      · rfl
    · split
      · rfl
      · split <;> rfl
  · intro store frameNum rest hlk hgood hbox hvid
    refine hwrap _ kpts ?_
    rw [attemptStep_resolved env ds 0 index kpts kpts store hidx hc (Or.inl ⟨hlk, rfl⟩)]
    rw [if_neg (by simp [hgood]), hbox,
      alignAll_cons_error store (ds.paths.getD index "") frameNum rest _
        (alignFrame_no_vid store (vidNameOf (ds.paths.getD index "")) frameNum hvid)]
  · intro store frameMap frameNum rest hlk hgood hbox hvid hframe
    refine hwrap _ kpts ?_
    rw [attemptStep_resolved env ds 0 index kpts kpts store hidx hc (Or.inl ⟨hlk, rfl⟩)]
    rw [if_neg (by simp [hgood]), hbox,
      alignAll_cons_error store (ds.paths.getD index "") frameNum rest _
        (alignFrame_no_frame store (vidNameOf (ds.paths.getD index "")) frameNum
          frameMap hvid hframe)]

/-- C10 witness: the side-file behaviours at concrete inputs over
`egPath` — missing file, first-access caching, missing per-video key and
missing per-frame key. -/
theorem C10_witness :
    (getitem egEnvNoKptsFile ⟨egDsK, [], 0⟩ 0).1 =
      ⟨.error (.kptsFileNotFound (kptsSideFilePath (egDsK.paths.getD 0 ""))), 1⟩ ∧
    (attemptStep egEnvStore egDsK 0 0 []).cache = [(0, egStore)] ∧
    (getitem egEnvNoKptsFile ⟨egDsK, [(0, egStoreNoVid)], 0⟩ 0).1 =
      ⟨.error (.keyErrorVid (vidNameOf (egDsK.paths.getD 0 ""))), 1⟩ ∧
    (getitem egEnvNoKptsFile ⟨egDsK, [(0, egStoreNoFrame)], 0⟩ 0).1 =
      ⟨.error (.keyErrorFrame ("frame" ++ toString 3)), 1⟩ :=
  ⟨(C10_kpts_side_file egEnvNoKptsFile egDsK [] 0 0 ⟨-1, -1, 256, 256, 256⟩
      (by decide) (by decide) (by decide) (by decide)).2.1 (by decide) (by decide),
   (C10_kpts_side_file egEnvStore egDsK [] 0 0 ⟨-1, -1, 256, 256, 256⟩
      (by decide) (by decide) (by decide) (by decide)).2.2.1 egStore
      (by decide) (by decide),
   (C10_kpts_side_file egEnvNoKptsFile egDsK [(0, egStoreNoVid)] 0 0
      ⟨-1, -1, 256, 256, 256⟩ (by decide) (by decide) (by decide)
      (by decide)).2.2.2.1 egStoreNoVid 3 [] (by decide) (by decide) (by decide)
      (by decide),
   (C10_kpts_side_file egEnvNoKptsFile egDsK [(0, egStoreNoFrame)] 0 0
      ⟨-1, -1, 256, 256, 256⟩ (by decide) (by decide) (by decide)
      (by decide)).2.2.2.2 egStoreNoFrame [("frame7", [])] 3 [] (by decide)
      (by decide) (by decide) (by decide) (by decide)⟩

/-- C1 (amended): every fetch begins at most `num_retries` loop iterations;
and — provided `num_retries ≥ 8` (so that the validation-failure modulus
`num_retries // 8` is non-zero) and the keypoint side file of every index
is available — if every attempt fails (container acquisition fails or
returns null, or the decoded frame list is null or contains a null entry),
the fetch raises the exhaustion error carrying the last-tried index and
its video path after exactly `num_retries` attempts, and no per-attempt
failure escapes. -/
theorem C1_retry_exhaustion :
    (∀ env st index, (getitem env st index).1.attempts ≤ st.ds.numRetries) ∧
    (∀ (env : Env) (st : KineticsState) (index : Nat) (p : SampleParams),
      selectAt st.ds index = .ok p →
      8 ≤ st.ds.numRetries →
      index < st.ds.paths.length →
      (∀ t, env.rand t < st.ds.paths.length) →
      (∀ t i, i < st.ds.paths.length →
        env.containerOk t i = false ∨ framesBad (env.decodeFrames t i) = true) →
      (∀ i, i < st.ds.paths.length →
        (env.kptsFile (deriveKptsId (st.ds.paths.getD i ""))).isSome) →
      ∃ j, j < st.ds.paths.length ∧
        (getitem env st index).1 =
          ⟨.error (.exhausted j (st.ds.paths.getD j "")), st.ds.numRetries⟩) := by
  constructor
  · intro env st index
    unfold getitem
    cases selectAt st.ds index with
    | error e => exact Nat.zero_le _
    | ok p =>
      dsimp only
      split
      · split <;> exact Nat.zero_le _
      · exact fetchGo_attempts_le env st.ds st.ds.numRetries 0 st.kpts index
  · intro env st index p hsel hnr8 hidx hrand hfail hkpts
    obtain ⟨j, kpts', hj, hgo⟩ :=
      fetchGo_exhaust env st.ds hnr8 hrand hfail hkpts st.ds.numRetries 0
        st.kpts index hidx
    refine ⟨j, hj, ?_⟩
    unfold getitem
    rw [hsel]
    dsimp only
    rw [if_neg (by omega), hgo]

/-- C1 counterexample: a train-mode instance with `num_retries = 2` whose
decoder returns a null frame list on every attempt — every attempt fails
in the claim's sense, yet the fetch raises `ZeroDivisionError` (not the
exhaustion error naming the last-tried index and path) after one attempt
rather than `num_retries = 2`, so a per-attempt failure does escape. -/
theorem C1_counterexample :
    egDsRetries2.numRetries = 2 ∧
    (getitem egEnvNullFrames ⟨egDsRetries2, [], 0⟩ 0).1 =
      ⟨.error .zeroDivisionError, 1⟩ :=
  ⟨rfl, by decide⟩

/-- C1 witness: a test-mode instance with `num_retries = 8` whose
container never opens exhausts all 8 attempts and raises the exhaustion
error for index 0 and path `"v"`. -/
theorem C1_witness :
    (getitem egEnvNoContainer ⟨egDsTest8, [], 0⟩ 0).1.attempts ≤
      egDsTest8.numRetries ∧
    (∃ j, j < egDsTest8.paths.length ∧
      (getitem egEnvNoContainer ⟨egDsTest8, [], 0⟩ 0).1 =
        ⟨.error (.exhausted j (egDsTest8.paths.getD j "")),
          egDsTest8.numRetries⟩) :=
  ⟨C1_retry_exhaustion.1 egEnvNoContainer ⟨egDsTest8, [], 0⟩ 0,
   C1_retry_exhaustion.2 egEnvNoContainer ⟨egDsTest8, [], 0⟩ 0
     ⟨0, 0, 224, 224, 224⟩ (by decide) (by decide) (by decide)
     (fun _ => Nat.one_pos) (fun _ _ _ => Or.inl rfl) (fun _ _ => rfl)⟩
